import Mathlib

/-!
Verification development for the Slack2Doc-Scribe repository.

This file gives a shallow embedding of the mediation layer of the
repository (the modules `slack2doc/google_client.py`,
`slack2doc/slack_utils.py` and `slack2doc/message_utils.py`) and proves
or refutes the behavioural claims made about it.

Modelling conventions:
  * Python machine state (the module-level globals `_pending_sheet_updates`
    and `_SLACK_USER_CACHE`, and the remote spreadsheet contents) is passed
    explicitly; every function returns the post-state.
  * A raised Python exception is modelled as an `Option String` error slot
    (or an `Except String` result); on an error the returned state is the
    state at the moment of the raise, since the Python functions mutate
    globals in place and an exception skips the rest of the function body.
  * A gspread worksheet is modelled as the list of its rows, each row the
    list of its written cell values (1-indexed access as in gspread).
  * `datetime.fromtimestamp(float(ts), tz=pytz.timezone("US/Eastern"))`
    followed by `.isoformat()` is modelled exactly for the domain the
    program sees: non-negative decimal timestamp strings with at most six
    fractional digits (the Slack `ts` wire format) denoting instants in
    years 2007 and later, where the US/Eastern zone follows the post-2007
    United States DST rule (second Sunday of March 07:00 UTC to first
    Sunday of November 06:00 UTC, offsets -04:00 and -05:00).
-/

namespace Slack2Doc

/-! ### Calendar arithmetic for `datetime` / `pytz` -/

/-- Days-to-civil-date conversion (Gregorian calendar, proleptic), for a
count of days since the Unix epoch 1970-01-01.  Returns (year, month, day). -/
def civilFromDays (z0 : Int) : Int × Nat × Nat :=
  let z := z0 + 719468
  let era : Int := Int.fdiv z 146097
  let doe : Nat := (z - era * 146097).toNat
  let yoe : Nat := (doe - doe / 1460 + doe / 36524 - doe / 146096) / 365
  let y : Int := (yoe : Int) + era * 400
  let doy : Nat := doe - (365 * yoe + yoe / 4 - yoe / 100)
  let mp : Nat := (5 * doy + 2) / 153
  let d : Nat := doy - (153 * mp + 2) / 5 + 1
  let m : Nat := if mp < 10 then mp + 3 else mp - 9
  (if m ≤ 2 then y + 1 else y, m, d)

/-- Civil-date-to-days conversion, inverse of `civilFromDays`. -/
def daysFromCivil (y0 : Int) (m d : Nat) : Int :=
  let y : Int := if m ≤ 2 then y0 - 1 else y0
  let era : Int := Int.fdiv y 400
  let yoe : Nat := (y - era * 400).toNat
  let mp : Nat := if m > 2 then m - 3 else m + 9
  let doy : Nat := (153 * mp + 2) / 5 + d - 1
  let doe : Nat := yoe * 365 + yoe / 4 - yoe / 100 + doy
  era * 146097 + (doe : Int) - 719468

/-- Day of the week for a count of days since the Unix epoch; Sunday = 0
(1970-01-01 was a Thursday, so day 0 maps to 4). -/
def weekdayFromDays (z : Int) : Nat := ((z + 4).emod 7).toNat

/-- Day number of the second Sunday of March of the given year (start of
US daylight saving time under the post-2007 rule). -/
def secondSundayMarch (y : Int) : Int :=
  let m1 := daysFromCivil y 3 1
  m1 + ((7 - weekdayFromDays m1) % 7) + 7

/-- Day number of the first Sunday of November of the given year (end of
US daylight saving time under the post-2007 rule). -/
def firstSundayNovember (y : Int) : Int :=
  let n1 := daysFromCivil y 11 1
  n1 + ((7 - weekdayFromDays n1) % 7)

/-- UTC offset, in seconds, of the US/Eastern timezone at the given Unix
instant (post-2007 DST rule: -04:00 during DST, -05:00 otherwise).
Models `pytz.timezone("US/Eastern")` for instants in 2007 and later. -/
def easternOffset (t : Int) : Int :=
  let y := (civilFromDays (Int.fdiv t 86400)).1
  let dstStart := secondSundayMarch y * 86400 + 25200
  let dstStop := firstSundayNovember y * 86400 + 21600
  if dstStart ≤ t ∧ t < dstStop then -14400 else -18000

/-- An instant: Unix seconds plus microseconds, as stored by a Python
`datetime` produced from `datetime.fromtimestamp`. -/
structure EpochTime where
  sec : Int
  micros : Nat
deriving DecidableEq, Repr

/-- Left-pads the decimal rendering of `n` with zeros to width `w`. -/
def padZeros (w n : Nat) : String :=
  let s := toString n
  String.mk (List.replicate (w - s.length) '0') ++ s

/-- Models `datetime.fromtimestamp(t, tz=DISPLAY_TIMEZONE).isoformat()`:
the ISO-8601 rendering of the instant in the US/Eastern zone, with the
microsecond field printed (six digits) exactly when it is non-zero. -/
def isoformatEastern (t : EpochTime) : String :=
  let off := easternOffset t.sec
  let loc := t.sec + off
  let days := Int.fdiv loc 86400
  let sod := (Int.emod loc 86400).toNat
  let ymd := civilFromDays days
  let date := padZeros 4 ymd.1.toNat ++ "-" ++ padZeros 2 ymd.2.1 ++ "-" ++ padZeros 2 ymd.2.2
  let tod := padZeros 2 (sod / 3600) ++ ":" ++ padZeros 2 (sod % 3600 / 60) ++ ":" ++ padZeros 2 (sod % 60)
  let frac := if t.micros = 0 then "" else "." ++ padZeros 6 t.micros
  let tz := if off = -14400 then "-04:00" else "-05:00"
  date ++ "T" ++ tod ++ frac ++ tz

/-! ### Timestamp-string parsing (`float(ts)` + `datetime.fromtimestamp`) -/

/-- Reads a non-empty all-digit character list as a natural number. -/
def parseDigits : List Char → Option Nat
  | [] => none
  | cs =>
    if cs.all (·.isDigit) then
      some (cs.foldl (fun n c => n * 10 + (c.toNat - 48)) 0)
    else none

/-- Splits a character list at the first dot, if any. -/
def splitDot : List Char → List Char × Option (List Char)
  | [] => ([], none)
  | c :: rest =>
    if c = '.' then ([], some rest)
    else
      let p := splitDot rest
      (c :: p.1, p.2)

/-- Reads at most six fraction digits as a microsecond count. -/
def parseFrac (fp : List Char) : Option Nat :=
  if fp.length ≤ 6 then parseDigits (fp ++ List.replicate (6 - fp.length) '0')
  else none

/-- Models `float(ts)` followed by `datetime.fromtimestamp` on the Slack
wire format for `ts`: a non-negative decimal string with at most six
fractional digits.  `none` models the `ValueError` raised by `float` on a
malformed string.  (For this domain the round trip through an IEEE double
is exact to the microsecond, so the decimal reading is the faithful
model.) -/
def parseTs (s : String) : Option EpochTime :=
  match splitDot s.toList with
  | (ip, none) => (parseDigits ip).map (fun n => ⟨(n : Int), 0⟩)
  | ([], some []) => none
  | (ip, some fp) =>
    let ipv := if ip = [] then some 0 else parseDigits ip
    let fpv := if fp = [] then some 0 else parseFrac fp
    match ipv, fpv with
    | some n, some micros => some ⟨(n : Int), micros⟩
    | _, _ => none

/-! ### Slack event payloads (JSON values) -/

/-- A JSON-like Slack event value: either a string leaf or a mapping.
The embedding restricts leaf values to strings, which is the Slack wire
format for every field the program reads. -/
inductive JVal where
  | s (v : String)
  | obj (fields : List (String × JVal))

/-- First-match association-list lookup; models `dict.__getitem__` /
`dict.get` on a Python dict (whose keys are unique). -/
def dictGet? {α : Type} : List (String × α) → String → Option α
  | [], _ => none
  | (k, v) :: rest, key => if k = key then some v else dictGet? rest key

/-- Models Python `event.get(key)`: `None` when the key is absent. -/
def JVal.get? : JVal → String → Option JVal
  | .obj fs, k => dictGet? fs k
  | .s _, _ => none

/-- Models Python `event[key]`: raises `KeyError` when the key is absent
and `TypeError` when the value subscripted is a string. -/
def JVal.getItem : JVal → String → Except String JVal
  | .obj fs, k =>
    match dictGet? fs k with
    | some x => .ok x
    | none => .error ("KeyError: " ++ k)
  | .s _, _ => .error "TypeError: string indices must be integers"

/-- Reads a string leaf; the fields the program extracts are strings on
the Slack wire format. -/
def JVal.asStr : JVal → Except String String
  | .s v => .ok v
  | .obj _ => .error "TypeError: expected a string value"

/-- `event[key]` followed by reading the value as a string. -/
def getStrItem (ev : JVal) (k : String) : Except String String :=
  match ev.getItem k with
  | .ok v => v.asStr
  | .error e => .error e

/-- `event["message"][key]` as performed by the edit/delete/reply
builders in `message_utils.py`. -/
def getNestedStr (ev : JVal) (k : String) : Except String String :=
  match ev.getItem "message" with
  | .ok m => getStrItem m k
  | .error e => .error e

/-- `event["message"]["edited"]["ts"]` as performed by the edit builder. -/
def getEditedTs (ev : JVal) : Except String String :=
  match ev.getItem "message" with
  | .ok m =>
    match m.getItem "edited" with
    | .ok e2 => getStrItem e2 "ts"
    | .error e => .error e
  | .error e => .error e

/-! ### `slack_utils.py`: the user directory cache -/

/-- The fields of `slack_utils.SlackUser` that the program consumes
(`id`, `real_name`, `last_refreshed`); the dynamic `kwargs` attribute bag
carries no behaviour.  `last_refreshed` is a Unix instant in seconds. -/
structure SlackUser where
  id : String
  real_name : String
  last_refreshed : Int
deriving DecidableEq, Repr

/-- `CACHE_TIME_TO_LIVE = timedelta(days=7)`, in seconds. -/
def CACHE_TIME_TO_LIVE : Int := 604800

/-- `SlackUser.entry_expired`: true when `datetime.now()` minus
`last_refreshed` strictly exceeds the TTL. -/
def entry_expired (now : Int) (u : SlackUser) : Bool :=
  CACHE_TIME_TO_LIVE < now - u.last_refreshed

/-- A response of the Slack `users_info` Web API call as the program
distinguishes them: success with profile fields, a rate-limit response,
or any other failure. -/
inductive ApiResponse where
  | ok (id real_name : String)
  | rateLimited (retryAfter : String)
  | failed (status : Nat)

/-- The environment of one request-processing step: the remote Slack API,
the current wall-clock instant `datetime.now()`, and the contents of the
configured user-cache file (`none` models `FileNotFoundError`). -/
structure ApplyEnv where
  api : String → ApiResponse
  now : Int
  persistedFile : Option (List (String × SlackUser))

/-- The module-level global `_SLACK_USER_CACHE` of `slack_utils.py`.
The Python global is a dict from the moment the module is imported; it is
modelled as an `Option` only so that the `is None` guard inside
`get_user_display` can be embedded as written. -/
structure ApplyState where
  userCache : Option (List (String × SlackUser))
deriving DecidableEq, Repr

/-- The value `_SLACK_USER_CACHE = {}` holds after module import. -/
def SLACK_USER_CACHE_INIT : ApplyState := ⟨some []⟩

/-- `slack_utils._load_user_cache`: reads the configured cache file,
returning the empty mapping on `FileNotFoundError`. -/
def load_user_cache (env : ApplyEnv) : List (String × SlackUser) :=
  env.persistedFile.getD []

/-- Python dict insert-or-replace, preserving the position of an existing
key as `dict.__setitem__` does. -/
def dictSet {α : Type} (c : List (String × α)) (k : String) (v : α) : List (String × α) :=
  if c.any (fun p => p.1 = k) then
    c.map (fun p => if p.1 = k then (k, v) else p)
  else c ++ [(k, v)]

/-- `slack_utils._api_fetch_user_info`: on a successful response builds a
`SlackUser` with `last_refreshed = datetime.now()`; a rate-limit or failed
response raises `RuntimeError`. -/
def api_fetch_user_info (api : String → ApiResponse) (now : Int) (uid : String) : Except String SlackUser :=
  match api uid with
  | .ok i rn => .ok ⟨i, rn, now⟩
  | .rateLimited _ =>
    .error ("RuntimeError: Slack Web API rate limit exceeded when fetching user info for user " ++ uid)
  | .failed _ =>
    .error ("RuntimeError: Failed to fetch user info for user " ++ uid)

deriving instance DecidableEq for Except

/-- The outcome of `get_user_display`: the returned display name or the
raised exception, the post-state of `_SLACK_USER_CACHE`, and the number of
remote `users_info` calls performed. -/
structure LookupResult where
  result : Except String String
  st : ApplyState
  fetches : Nat
deriving DecidableEq, Repr

/-- `slack_utils.get_user_display`, embedded as written: the initial
`if _SLACK_USER_CACHE is None` guard (which would reload the persisted
file) is taken only when the global is `None`, which module initialization
makes impossible; then a cache hit within the TTL is returned directly, and
a miss or an expired entry triggers one remote fetch whose result replaces
the cache entry.  On a fetch failure the exception propagates and the
cache is left unchanged. -/
def get_user_display (env : ApplyEnv) (st : ApplyState) (uid : String) : LookupResult :=
  match st.userCache with
  | none => ⟨.error "AttributeError: NoneType object has no attribute update", st, 0⟩
  | some c =>
    match dictGet? c uid with
    | some user =>
      if entry_expired env.now user then
        match api_fetch_user_info env.api env.now uid with
        | .ok u => ⟨.ok u.real_name, ⟨some (dictSet c uid u)⟩, 1⟩
        | .error e => ⟨.error e, ⟨some c⟩, 1⟩
      else ⟨.ok user.real_name, ⟨some c⟩, 0⟩
    | none =>
      match api_fetch_user_info env.api env.now uid with
      | .ok u => ⟨.ok u.real_name, ⟨some (dictSet c uid u)⟩, 1⟩
      | .error e => ⟨.error e, ⟨some c⟩, 1⟩

/-! ### gspread worksheets -/

/-- A worksheet row: the list of its written cell values. -/
abbrev Row := List String

/-- A gspread worksheet: the list of its rows.  Cells that were never
written read as absent (gspread returns no value for them), and
`worksheet.row_count` is the number of rows of the grid. -/
abbrev Worksheet := List Row

/-- `worksheet.row_values(i)` (1-indexed): the values of row `i`, empty
when the row does not exist. -/
def rowValues (ws : Worksheet) (i : Nat) : Row := (ws.get? (i - 1)).getD []

/-- `worksheet.row_count`. -/
def rowCount (ws : Worksheet) : Nat := ws.length

/-- `worksheet.insert_row(values, idx)` (1-indexed): inserts the row
before the current row `idx`. -/
def insertRow (ws : Worksheet) (vals : Row) (idx : Nat) : Worksheet :=
  ws.take (idx - 1) ++ [vals] ++ ws.drop (idx - 1)

/-- `worksheet.delete_row(idx)` (1-indexed). -/
def deleteRow (ws : Worksheet) (idx : Nat) : Worksheet := ws.eraseIdx (idx - 1)

/-- Writes value `v` at 0-indexed position `i` of a row, padding the row
with empty cells when it is shorter (gspread addresses the full grid). -/
def setPad (row : Row) (i : Nat) (v : String) : Row :=
  (row ++ List.replicate (i + 1 - row.length) "").set i v

/-- `worksheet.update_cell(r, c, v)` (1-indexed). -/
def updateCell (ws : Worksheet) (r c : Nat) (v : String) : Worksheet :=
  match ws.get? (r - 1) with
  | none => ws
  | some row => ws.set (r - 1) (setPad row (c - 1) v)

/-- Position of the first cell of a row holding value `v`, 1-indexed. -/
def findInRow : Row → String → Option Nat
  | [], _ => none
  | c :: rest, v =>
    if c = v then some 1
    else (findInRow rest v).map (· + 1)

/-- `worksheet.find(v)`: the (row, column) of the first cell holding `v`
in row-major order, or `CellNotFound` (modelled as `none`). -/
def findCell : Worksheet → String → Option (Nat × Nat)
  | [], _ => none
  | r :: rest, v =>
    match findInRow r v with
    | some c => some (1, c)
    | none => (findCell rest v).map (fun p => (p.1 + 1, p.2))

/-! ### `google_client.py`: sheet updates -/

/-- `MESSAGE_WORKSHEET_NAME` of `google_client.py`. -/
def MESSAGE_WORKSHEET_NAME : String := "ALL_MESSAGES"

/-- `MAX_PENDING_SHEET_WRITES` of `google_client.py`. -/
def MAX_PENDING_SHEET_WRITES : Nat := 10

/-- `ColumnHeaders.__members__.keys()`: the canonical header row. -/
def expectedHeaders : List String :=
  ["MessageId", "Username", "Message", "MessageTimestamp", "LastEdited"]

/-- `ColumnHeaders[name].value`: Python `Enum` lookup by member name;
`none` models the `KeyError` raised for a name that is not a member. -/
def columnHeadersGetitem : String → Option Nat
  | "MessageId" => some 1
  | "Username" => some 2
  | "Message" => some 3
  | "MessageTimestamp" => some 4
  | "LastEdited" => some 5
  | _ => none

/-- The sheet update classes of `google_client.py` as a closed variant:
`SheetUpdateNew`, `SheetUpdateEdit`, `SheetUpdateDelete`,
`SheetUpdateReply`.  The `timestamp` fields hold the instants produced by
`datetime.fromtimestamp(float(raw), tz=DISPLAY_TIMEZONE)` in
`BaseSheetUpdate.__init__` (and its `edit_timestamp` counterpart). -/
inductive SheetUpdate where
  | new (message_id message : String) (timestamp : EpochTime) (user_id : String)
  | edit (message_id message : String) (timestamp edit_timestamp : EpochTime)
  | delete (message_id message : String) (timestamp : EpochTime)
  | reply (message_id message : String) (timestamp : EpochTime)
deriving DecidableEq, Repr

/-- The outcome of `update.apply_to_sheet(worksheet)`: the post-state of
the worksheet and of the user cache, the number of remote user-info
fetches, and the raised exception if any. -/
structure ApplyResult where
  ws : Worksheet
  st : ApplyState
  fetches : Nat
  err : Option String
deriving DecidableEq, Repr

/-- `apply_to_sheet` of the four update classes, embedded as written:

* `SheetUpdateNew`: resolves the display name through `get_user_display`
  (an exception there propagates) and inserts
  `[message_id, user_name, message, timestamp.isoformat()]` at row 2.
* `SheetUpdateEdit`: finds the first cell holding `message_id`; when no
  cell is found it logs and returns.  When a cell is found it evaluates
  `ColumnHeaders["MessageID"].value`, which raises `KeyError` because the
  member is named `MessageId`; the remaining branch (column check and the
  two `update_cell` calls) is embedded as written although unreachable.
* `SheetUpdateDelete`: the same shape, deleting the found row.
* `SheetUpdateReply`: logs a warning and does nothing. -/
def applyToSheet (env : ApplyEnv) (st : ApplyState) (u : SheetUpdate) (ws : Worksheet) : ApplyResult :=
  match u with
  | .new message_id message timestamp user_id =>
    match get_user_display env st user_id with
    | ⟨.error e, st', n⟩ => ⟨ws, st', n, some e⟩
    | ⟨.ok user_name, st', n⟩ =>
      ⟨insertRow ws [message_id, user_name, message, isoformatEastern timestamp] 2, st', n, none⟩
  | .edit message_id message _timestamp edit_timestamp =>
    match findCell ws message_id with
    | none => ⟨ws, st, 0, none⟩
    | some cell =>
      match columnHeadersGetitem "MessageID" with
      | none => ⟨ws, st, 0, some "KeyError: MessageID"⟩
      | some idCol =>
        if cell.2 ≠ idCol then ⟨ws, st, 0, none⟩
        else
          match columnHeadersGetitem "Message", columnHeadersGetitem "LastEdited" with
          | some mCol, some eCol =>
            ⟨updateCell (updateCell ws cell.1 mCol message) cell.1 eCol (isoformatEastern edit_timestamp),
             st, 0, none⟩
          | _, _ => ⟨ws, st, 0, some "KeyError"⟩
  | .delete message_id _message _timestamp =>
    match findCell ws message_id with
    | none => ⟨ws, st, 0, none⟩
    | some cell =>
      match columnHeadersGetitem "MessageID" with
      | none => ⟨ws, st, 0, some "KeyError: MessageID"⟩
      | some idCol =>
        if cell.2 ≠ idCol then ⟨ws, st, 0, none⟩
        else ⟨deleteRow ws cell.1, st, 0, none⟩
  | .reply _ _ _ => ⟨ws, st, 0, none⟩

/-- `google_client._ensure_sheet_formatting`, embedded as written: when
row 1 differs from the canonical headers, `delete_row(1)`; when it
matches, first the `row_count in (0, 1)` workaround
(`insert_row([], 1)`, `insert_row(headers, 1)`, `delete_row(3)`) and then
unconditionally `delete_row(1)`. -/
def ensure_sheet_formatting (ws : Worksheet) : Worksheet :=
  if rowValues ws 1 ≠ expectedHeaders then
    deleteRow ws 1
  else
    let ws' :=
      if rowCount ws = 0 ∨ rowCount ws = 1 then
        deleteRow (insertRow (insertRow ws [] 1) expectedHeaders 1) 3
      else ws
    deleteRow ws' 1

/-! ### `message_utils.py`: building updates from raw events -/

/-- The `ValueError` message raised by `float` on a malformed timestamp. -/
def floatValueError : String := "ValueError: could not convert string to float"

/-- `message_utils._build_update_new`: reads the top-level
`client_msg_id`, `text`, `ts` and `user` fields, then
`BaseSheetUpdate.__init__` converts `ts` with `float`. -/
def build_update_new (ev : JVal) : Except String SheetUpdate :=
  match getStrItem ev "client_msg_id", getStrItem ev "text", getStrItem ev "ts", getStrItem ev "user" with
  | .ok message_id, .ok message, .ok ts, .ok user_id =>
    match parseTs ts with
    | some t => .ok (.new message_id message t user_id)
    | none => .error floatValueError
  | .error e, _, _, _ => .error e
  | _, .error e, _, _ => .error e
  | _, _, .error e, _ => .error e
  | _, _, _, .error e => .error e

/-- `message_utils._build_update_edit`: reads the nested
`message.client_msg_id`, `message.text`, `message.ts` and
`message.edited.ts` fields. -/
def build_update_edit (ev : JVal) : Except String SheetUpdate :=
  match getNestedStr ev "client_msg_id", getNestedStr ev "text", getNestedStr ev "ts", getEditedTs ev with
  | .ok message_id, .ok message, .ok ts, .ok ets =>
    match parseTs ts with
    | none => .error floatValueError
    | some t =>
      match parseTs ets with
      | none => .error floatValueError
      | some et => .ok (.edit message_id message t et)
  | .error e, _, _, _ => .error e
  | _, .error e, _, _ => .error e
  | _, _, .error e, _ => .error e
  | _, _, _, .error e => .error e

/-- `message_utils._build_update_delete`: reads the nested
`message.client_msg_id`, `message.text` and `message.ts` fields. -/
def build_update_delete (ev : JVal) : Except String SheetUpdate :=
  match getNestedStr ev "client_msg_id", getNestedStr ev "text", getNestedStr ev "ts" with
  | .ok message_id, .ok message, .ok ts =>
    match parseTs ts with
    | some t => .ok (.delete message_id message t)
    | none => .error floatValueError
  | .error e, _, _ => .error e
  | _, .error e, _ => .error e
  | _, _, .error e => .error e

/-- `message_utils._build_update_reply`: reads the same nested fields as
the delete builder. -/
def build_update_reply (ev : JVal) : Except String SheetUpdate :=
  match getNestedStr ev "client_msg_id", getNestedStr ev "text", getNestedStr ev "ts" with
  | .ok message_id, .ok message, .ok ts =>
    match parseTs ts with
    | some t => .ok (.reply message_id message t)
    | none => .error floatValueError
  | .error e, _, _ => .error e
  | _, .error e, _ => .error e
  | _, _, .error e => .error e

/-- The pending-update global `_pending_sheet_updates`: spreadsheet name
to list of queued updates, in arrival order.  A `defaultdict(list)` whose
keys are created on first append, so every key maps to a non-empty list
and key count equals the number of spreadsheets with pending updates. -/
abbrev Pending := List (String × List SheetUpdate)

/-- `google_client.register_update`: appends the update to the named
spreadsheet's pending list (a pure append; it performs no flush). -/
def register_update (pending : Pending) (sheet_name : String) (u : SheetUpdate) : Pending :=
  if pending.any (fun p => p.1 = sheet_name) then
    pending.map (fun p => if p.1 = sheet_name then (p.1, p.2 ++ [u]) else p)
  else pending ++ [(sheet_name, [u])]

/-- `update_builder_lookup[subtype]` of
`message_utils.register_message_for_update`: `none` models the `KeyError`
raised for an unsupported subtype. -/
def lookupBuilder : Option JVal → Option (JVal → Except String SheetUpdate)
  | none => some build_update_new
  | some (.s "message_changed") => some build_update_edit
  | some (.s "message_deleted") => some build_update_delete
  | some (.s "message_replied") => some build_update_reply
  | some _ => none

/-- `message_utils.register_message_for_update`: validates the event
type, dispatches on `subtype`, builds the update and appends it to the
pending queue of the configured spreadsheet.  On any exception the queue
is returned unchanged by the caller since the append is never reached. -/
def register_message_for_update (spreadsheet_name : String) (ev : JVal) (pending : Pending) :
    Except String Pending :=
  match ev.getItem "type" with
  | .error e => .error e
  | .ok ty =>
    match ty with
    | .s "message" =>
      match lookupBuilder (ev.get? "subtype") with
      | none => .error "KeyError: unsupported message subtype"
      | some builder =>
        match builder ev with
        | .error e => .error e
        | .ok u => .ok (register_update pending spreadsheet_name u)
    | _ => .error "TypeError: payload must be a Slack Event dictionary of type message"

/-! ### `google_client.py`: flushing the pending queue -/

/-- The remote Google Sheets service: spreadsheet name to its worksheets
(worksheet title to contents). -/
structure Remote where
  sheets : List (String × List (String × Worksheet))
deriving DecidableEq, Repr

/-- Replaces (or creates) the message worksheet of the named spreadsheet. -/
def remoteSetWs (rem : Remote) (sheet_name : String) (ws : Worksheet) : Remote :=
  match dictGet? rem.sheets sheet_name with
  | none => rem
  | some wss => ⟨dictSet rem.sheets sheet_name (dictSet wss MESSAGE_WORKSHEET_NAME ws)⟩

/-- The for-loop body state of `_write_pending_updates` applied to one
spreadsheet's update list: sequential application, stopping at the first
raised exception as the Python loop does. -/
def applyUpdatesList (env : ApplyEnv) : ApplyState → List SheetUpdate → Worksheet → ApplyResult
  | st, [], ws => ⟨ws, st, 0, none⟩
  | st, u :: rest, ws =>
    let r := applyToSheet env st u ws
    match r.err with
    | some _ => r
    | none =>
      let r2 := applyUpdatesList env r.st rest r.ws
      ⟨r2.ws, r2.st, r.fetches + r2.fetches, r2.err⟩

/-- The outcome of `_write_pending_updates` (or of the teardown hook):
the post-state of the remote service, of the user cache and of the
pending-update global, the number of user-info fetches, and the raised
exception if any. -/
structure FlushResult where
  remote : Remote
  st : ApplyState
  pending : Pending
  fetches : Nat
  err : Option String
deriving DecidableEq, Repr

/-- The `for sheet_name, updates in _pending_sheet_updates.items()` loop
of `_write_pending_updates`: open the spreadsheet (`SpreadsheetNotFound`
is logged and re-raised), open or create the `ALL_MESSAGES` worksheet
(created with one empty grid row), run `_ensure_sheet_formatting`, then
apply each queued update.  Worksheet mutations performed before a raise
are kept, since each gspread call writes to the remote service
immediately. -/
def flushSheets (env : ApplyEnv) : ApplyState → Pending → Remote → Remote × ApplyState × Nat × Option String
  | st, [], rem => (rem, st, 0, none)
  | st, (sheet_name, updates) :: rest, rem =>
    match dictGet? rem.sheets sheet_name with
    | none => (rem, st, 0, some ("SpreadsheetNotFound: " ++ sheet_name))
    | some wss =>
      let ws0 :=
        match dictGet? wss MESSAGE_WORKSHEET_NAME with
        | some w => w
        | none => [[]]
      let ws1 := ensure_sheet_formatting ws0
      let r := applyUpdatesList env st updates ws1
      let rem' := remoteSetWs rem sheet_name r.ws
      match r.err with
      | some e => (rem', r.st, r.fetches, some e)
      | none =>
        let rec2 := flushSheets env r.st rest rem'
        (rec2.1, rec2.2.1, r.fetches + rec2.2.2.1, rec2.2.2.2)

/-- `google_client._write_pending_updates`: runs the per-spreadsheet loop
and then clears `_pending_sheet_updates`.  The `clear()` sits after the
loop, so an exception raised inside the loop propagates and leaves the
pending global untouched. -/
def write_pending_updates (env : ApplyEnv) (st : ApplyState) (pending : Pending) (rem : Remote) :
    FlushResult :=
  let r := flushSheets env st pending rem
  match r.2.2.2 with
  | none => ⟨r.1, r.2.1, [], r.2.2.1, none⟩
  | some e => ⟨r.1, r.2.1, pending, r.2.2.1, some e⟩

/-- The `_teardown` callback registered by `google_client.init_app`:
flushes only when `len(_pending_sheet_updates)` — the number of
spreadsheets with a pending list, not the number of queued updates —
exceeds `MAX_PENDING_SHEET_WRITES`. -/
def teardown (env : ApplyEnv) (st : ApplyState) (pending : Pending) (rem : Remote) : FlushResult :=
  if pending.length > MAX_PENDING_SHEET_WRITES then
    write_pending_updates env st pending rem
  else ⟨rem, st, pending, 0, none⟩

/-! ### Concrete test fixtures -/

/-- A stored message row of a worksheet. -/
def sampleRow : Row := ["m1", "alice", "hi", "2021-01-07T01:13:20-05:00", ""]

/-- A worksheet holding the canonical header row and one message row. -/
def sampleSheet : Worksheet := [expectedHeaders, sampleRow]

/-- A remote service with one spreadsheet `S` holding `sampleSheet`. -/
def remS : Remote := ⟨[("S", [(MESSAGE_WORKSHEET_NAME, sampleSheet)])]⟩

/-- An empty user cache (the state right after module import). -/
def stEmpty : ApplyState := ⟨some []⟩

/-- A cache holding a fresh entry for `U1`. -/
def stAlice : ApplyState := ⟨some [("U1", ⟨"U1", "Alice Smith", 1609990000⟩)]⟩

/-- An environment whose remote user API always succeeds. -/
def envAlice : ApplyEnv := ⟨fun u => ApiResponse.ok u "Alice Smith", 1610000000, none⟩

/-- An environment whose remote user API is always rate-limited. -/
def envRateLimited : ApplyEnv := ⟨fun _ => ApiResponse.rateLimited "30", 1610000000, none⟩

/-- One pending new-message update for spreadsheet `S`. -/
def singlePending : Pending := [("S", [SheetUpdate.new "m1" "hi" ⟨1610000000, 100⟩ "U1"])]

/-- Eleven identical new-message updates. -/
def elevenUpdates : List SheetUpdate :=
  List.replicate 11 (SheetUpdate.new "m1" "hi" ⟨1610000000, 100⟩ "U1")

/-- The pending queue after enqueuing `elevenUpdates` one by one for the
single spreadsheet `S`. -/
def pendingEleven : Pending :=
  elevenUpdates.foldl (fun p u => register_update p "S" u) []

/-- The event of the end-to-end scenario of the spec: a plain message in
channel `C1`. -/
def newEventFields : List (String × JVal) :=
  [("type", .s "message"), ("channel", .s "C1"), ("ts", .s "1610000000.000100"),
   ("text", .s "hi"), ("user", .s "U1"), ("client_msg_id", .s "m1")]

/-- A cache entry for `U1` refreshed within the TTL. -/
def freshCacheU1 : List (String × SlackUser) := [("U1", ⟨"U1", "Old Name", 1609990000⟩)]

/-- A cache entry for `U1` refreshed more than 7 days ago. -/
def staleCacheU1 : List (String × SlackUser) := [("U1", ⟨"U1", "Old Name", 1609000000⟩)]

/-- An environment whose remote user API reports the name `Fresh Name`. -/
def envFresh : ApplyEnv := ⟨fun u => ApiResponse.ok u "Fresh Name", 1610000000, none⟩

/-- The persisted cache-file entry of the C9 failing input. -/
def persistedU1 : SlackUser := ⟨"U1", "Persisted Name", 1609990000⟩

/-- An environment whose cache file persists a within-TTL entry for `U1`
and whose remote API reports the name `Remote Name`. -/
def envPersisted : ApplyEnv :=
  ⟨fun u => ApiResponse.ok u "Remote Name", 1610000000, some [("U1", persistedU1)]⟩

/-- The rejection behaviour claimed for malformed delete/reply events:
both nested-field builders raise, and — for an event that reaches them
through the subtype dispatch — `register_message_for_update` raises, so
no update is appended to the pending queue. -/
def buildersReject (sp : String) (pending : Pending) (fs : List (String × JVal)) : Prop :=
  (∃ e, build_update_delete (.obj fs) = .error e) ∧
  (∃ e, build_update_reply (.obj fs) = .error e) ∧
  (dictGet? fs "type" = some (.s "message") →
    dictGet? fs "subtype" = some (.s "message_deleted") →
    ∃ e, register_message_for_update sp (.obj fs) pending = .error e) ∧
  (dictGet? fs "type" = some (.s "message") →
    dictGet? fs "subtype" = some (.s "message_replied") →
    ∃ e, register_message_for_update sp (.obj fs) pending = .error e)

/-- A well-formed `message_deleted` event with its nested `message`. -/
def delEventNested : List (String × JVal) :=
  [("client_msg_id", .s "m1"), ("text", .s "hi"), ("ts", .s "1610000000.000100")]

/-- The fields of a well-formed `message_deleted` event. -/
def delEventFields : List (String × JVal) :=
  [("type", .s "message"), ("subtype", .s "message_deleted"), ("message", .obj delEventNested)]

/-- The fields of a `message_deleted` event with no nested `message`. -/
def noMsgFields : List (String × JVal) :=
  [("type", .s "message"), ("subtype", .s "message_deleted"), ("ts", .s "1610000000.000100")]

end Slack2Doc

namespace Slack2Doc

/-! ### Theorems -/

/-- C1: the claim fails on the code.  At a worksheet whose message-id
column holds exactly one cell matching the update's `message_id`, both
`SheetUpdateEdit.apply_to_sheet` and `SheetUpdateDelete.apply_to_sheet`
raise `KeyError("MessageID")` when they evaluate
`ColumnHeaders["MessageID"].value` (the enum member is named `MessageId`),
so the matched row is neither edited nor deleted and the exception
propagates. -/
theorem edit_and_delete_raise_on_matched_id :
    applyToSheet envAlice stEmpty (.edit "m1" "hi there" ⟨1610000000, 100⟩ ⟨1610000100, 0⟩) sampleSheet
      = ⟨sampleSheet, stEmpty, 0, some "KeyError: MessageID"⟩ ∧
    applyToSheet envAlice stEmpty (.delete "m1" "hi" ⟨1610000000, 100⟩) sampleSheet
      = ⟨sampleSheet, stEmpty, 0, some "KeyError: MessageID"⟩ :=
  ⟨rfl, rfl⟩

/-- C3: the claim fails on the code.  On a worksheet whose row 1 already
equals the canonical header sequence and which has more than one row,
`_ensure_sheet_formatting` executes the `delete_row(1)` at the end of the
matching branch: the sheet is mutated and its new row 1 is the old data
row, not the canonical header. -/
theorem header_repair_deletes_canonical_header :
    ensure_sheet_formatting sampleSheet = [sampleRow] ∧
    rowValues (ensure_sheet_formatting sampleSheet) 1 ≠ expectedHeaders :=
  ⟨rfl, by decide⟩

/-- C4: the claim fails on the code.  `register_update` is a pure append
and never flushes; after the eleventh enqueued update the queue holds all
eleven updates under the single spreadsheet key, and the teardown
checkpoint still flushes nothing because it compares the number of
spreadsheet keys (1) — not the total update count (11) — against
`MAX_PENDING_SHEET_WRITES`. -/
theorem enqueue_overflow_does_not_flush :
    pendingEleven = [("S", elevenUpdates)] ∧
    (pendingEleven.map (fun p => p.2.length)).sum = 11 ∧
    pendingEleven.length = 1 ∧
    teardown envAlice stEmpty pendingEleven remS = ⟨remS, stEmpty, pendingEleven, 0, none⟩ :=
  ⟨rfl, rfl, rfl, rfl⟩

/-- C5: the claim fails on the code.  The teardown checkpoint is not an
unconditional flush: with one spreadsheet holding one queued update
(`len(_pending_sheet_updates) = 1 ≤ 10`) the `_teardown` callback leaves
the queue and the remote service untouched. -/
theorem teardown_skips_flush_below_sheet_count :
    teardown envAlice stEmpty singlePending remS = ⟨remS, stEmpty, singlePending, 0, none⟩ ∧
    singlePending ≠ [] :=
  ⟨rfl, by decide⟩

/-- C2: for every valid New-type raw event — `client_msg_id`, `text`,
`ts` and `user` present as strings, `ts` parseable, display-name
resolution succeeding, and a target worksheet with its header row —
`_build_update_new` produces the New update, and applying it inserts
exactly one row at row position 2 holding the message id, the resolved
display name, the message text and the ISO-8601 rendering of the
timestamp in the US/Eastern display timezone, in that order; row 1 and
all old rows `i ≥ 2` (now at `i + 1`) are unchanged. -/
theorem new_event_builds_and_inserts_at_row_two
    (fs : List (String × JVal)) (message_id text ts user_id dname : String)
    (t : EpochTime) (env : ApplyEnv) (st st' : ApplyState) (n : Nat) (ws : Worksheet)
    (hid : dictGet? fs "client_msg_id" = some (.s message_id))
    (htxt : dictGet? fs "text" = some (.s text))
    (hts : dictGet? fs "ts" = some (.s ts))
    (huid : dictGet? fs "user" = some (.s user_id))
    (hparse : parseTs ts = some t)
    (hname : get_user_display env st user_id = ⟨.ok dname, st', n⟩)
    (hws : 1 ≤ ws.length) :
    build_update_new (.obj fs) = .ok (.new message_id text t user_id) ∧
    applyToSheet env st (.new message_id text t user_id) ws =
      ⟨insertRow ws [message_id, dname, text, isoformatEastern t] 2, st', n, none⟩ ∧
    (insertRow ws [message_id, dname, text, isoformatEastern t] 2).length = ws.length + 1 ∧
    rowValues (insertRow ws [message_id, dname, text, isoformatEastern t] 2) 2
      = [message_id, dname, text, isoformatEastern t] ∧
    rowValues (insertRow ws [message_id, dname, text, isoformatEastern t] 2) 1 = rowValues ws 1 ∧
    ∀ i, 2 ≤ i →
      rowValues (insertRow ws [message_id, dname, text, isoformatEastern t] 2) (i + 1) = rowValues ws i := by
  obtain ⟨a, tl, rfl⟩ : ∃ a tl, ws = a :: tl := by
    cases ws with
    | nil => simp at hws
    | cons a tl => exact ⟨a, tl, rfl⟩
  refine ⟨?_, ?_, rfl, rfl, rfl, ?_⟩
  · simp only [build_update_new, getStrItem, JVal.getItem, JVal.asStr, hid, htxt, hts, huid, hparse]
  · simp only [applyToSheet, hname]
  · intro i hi
    obtain ⟨k, rfl⟩ : ∃ k, i = k + 2 := ⟨i - 2, by omega⟩
    rfl

/-- Witness for C2 at the end-to-end scenario event. -/
theorem new_event_builds_and_inserts_at_row_two_w :
    build_update_new (.obj newEventFields)
      = .ok (.new "m1" "hi" ⟨1610000000, 100⟩ "U1") ∧
    applyToSheet envAlice stAlice (.new "m1" "hi" ⟨1610000000, 100⟩ "U1") [expectedHeaders] =
      ⟨[expectedHeaders, ["m1", "Alice Smith", "hi", "2021-01-07T01:13:20.000100-05:00"]],
       stAlice, 0, none⟩ ∧
    rowValues (insertRow [expectedHeaders] ["m1", "Alice Smith", "hi", "2021-01-07T01:13:20.000100-05:00"] 2) 2
      = ["m1", "Alice Smith", "hi", "2021-01-07T01:13:20.000100-05:00"] := by
  have h := new_event_builds_and_inserts_at_row_two newEventFields "m1" "hi" "1610000000.000100"
    "U1" "Alice Smith" ⟨1610000000, 100⟩ envAlice stAlice stAlice 0 [expectedHeaders]
    rfl rfl rfl rfl (by decide) rfl (by decide)
  refine ⟨h.1, ?_, ?_⟩
  · have h2 := h.2.1
    rw [h2]
    decide
  · have h4 := h.2.2.2.1
    rw [show isoformatEastern ⟨1610000000, 100⟩ = "2021-01-07T01:13:20.000100-05:00" from by decide] at h4
    exact h4

/-- C6 counterexample: the claim, as stated, is false.  A New update
whose display-name resolution is rate-limited does not insert any row
(in particular none carrying the raw `user_id`): the worksheet comes back
unchanged and the `RuntimeError` propagates. -/
theorem resolution_failure_skips_insert_cex :
    applyToSheet envRateLimited stEmpty (.new "m1" "hi" ⟨1610000000, 100⟩ "U1") [expectedHeaders]
      = ⟨[expectedHeaders], stEmpty, 1,
         some "RuntimeError: Slack Web API rate limit exceeded when fetching user info for user U1"⟩ :=
  rfl

/-- C6 amended: when display-name resolution raises, the exception
propagates out of `SheetUpdateNew.apply_to_sheet` — no row is inserted,
there is no fallback to the raw `user_id` — and the per-spreadsheet
update loop stops there, so the remaining queued updates of the batch are
not applied. -/
theorem resolution_failure_propagates_and_aborts
    (env : ApplyEnv) (st st' : ApplyState) (message_id message user_id e : String)
    (t : EpochTime) (n : Nat) (rest : List SheetUpdate) (ws : Worksheet)
    (hname : get_user_display env st user_id = ⟨.error e, st', n⟩) :
    applyToSheet env st (.new message_id message t user_id) ws = ⟨ws, st', n, some e⟩ ∧
    applyUpdatesList env st (.new message_id message t user_id :: rest) ws = ⟨ws, st', n, some e⟩ := by
  have h1 : applyToSheet env st (.new message_id message t user_id) ws = ⟨ws, st', n, some e⟩ := by
    simp only [applyToSheet, hname]
  exact ⟨h1, by simp only [applyUpdatesList, h1]⟩

/-- Witness for C6 amended: the rate-limited fixture, with one more
queued update behind the failing one. -/
theorem resolution_failure_propagates_and_aborts_w :
    applyToSheet envRateLimited stEmpty (.new "m2" "hello" ⟨1610000100, 0⟩ "U2") sampleSheet
      = ⟨sampleSheet, stEmpty, 1,
         some "RuntimeError: Slack Web API rate limit exceeded when fetching user info for user U2"⟩ ∧
    applyUpdatesList envRateLimited stEmpty
        [.new "m2" "hello" ⟨1610000100, 0⟩ "U2", .reply "m1" "hi" ⟨1610000000, 0⟩] sampleSheet
      = ⟨sampleSheet, stEmpty, 1,
         some "RuntimeError: Slack Web API rate limit exceeded when fetching user info for user U2"⟩ :=
  resolution_failure_propagates_and_aborts envRateLimited stEmpty stEmpty "m2" "hello" "U2"
    _ ⟨1610000100, 0⟩ 1 [.reply "m1" "hi" ⟨1610000000, 0⟩] sampleSheet rfl

/-- C7 counterexample: the claim, as stated, is false.  When the
synchronizer fails (here: the spreadsheet does not exist), the error is
propagated but the batch is NOT dropped: `_pending_sheet_updates` still
holds the queued update, because the `clear()` after the loop is never
reached. -/
theorem flush_failure_retains_queue_cex :
    write_pending_updates envAlice stEmpty singlePending ⟨[]⟩
      = ⟨⟨[]⟩, stEmpty, singlePending, 0, some "SpreadsheetNotFound: S"⟩ ∧
    singlePending ≠ [] :=
  ⟨rfl, by decide⟩

/-- C7 amended: `_write_pending_updates` clears the pending map only when
every spreadsheet's synchronization returns without raising; when any step
raises, the error propagates to the caller and the whole queue is left in
place (nothing is dropped). -/
theorem queue_cleared_only_on_flush_success
    (env : ApplyEnv) (st : ApplyState) (pending : Pending) (rem : Remote) :
    ((write_pending_updates env st pending rem).err = none →
      (write_pending_updates env st pending rem).pending = []) ∧
    ((write_pending_updates env st pending rem).err ≠ none →
      (write_pending_updates env st pending rem).pending = pending) := by
  rcases hE : (flushSheets env st pending rem).2.2.2 with _ | e <;>
    simp [write_pending_updates, hE]

/-- Witness for C7 amended: a successful flush clears the queue; a failed
open leaves it untouched. -/
theorem queue_cleared_only_on_flush_success_w :
    (write_pending_updates envAlice stEmpty [("S", [.reply "m1" "hi" ⟨1610000000, 0⟩])] remS).pending = [] ∧
    (write_pending_updates envAlice stEmpty singlePending ⟨[]⟩).pending = singlePending :=
  ⟨(queue_cleared_only_on_flush_success envAlice stEmpty [("S", [.reply "m1" "hi" ⟨1610000000, 0⟩])] remS).1 rfl,
   (queue_cleared_only_on_flush_success envAlice stEmpty singlePending ⟨[]⟩).2 (by decide)⟩

/-- In the replacement branch of `dictSet`, the looked-up key reads back
the new value. -/
lemma dictGet?_map_set {α : Type} (k : String) (v : α) :
    ∀ c : List (String × α), c.any (fun p => p.1 = k) = true →
      dictGet? (c.map (fun p => if p.1 = k then (k, v) else p)) k = some v := by
  intro c h
  induction c with
  | nil => simp at h
  | cons a rest ih =>
    simp only [List.any_cons, Bool.or_eq_true, decide_eq_true_eq] at h
    by_cases ha : a.1 = k
    · rw [List.map_cons, if_pos ha]
      simp [dictGet?]
    · rcases h with h | h
      · exact absurd h ha
      · rw [List.map_cons, if_neg ha]
        simp only [dictGet?]
        rw [if_neg ha]
        exact ih h

/-- In the append branch of `dictSet`, the looked-up key reads back the
new value. -/
lemma dictGet?_append_self {α : Type} (k : String) (v : α) :
    ∀ c : List (String × α), c.any (fun p => p.1 = k) = false →
      dictGet? (c ++ [(k, v)]) k = some v := by
  intro c h
  induction c with
  | nil => simp [dictGet?]
  | cons a rest ih =>
    simp only [List.any_cons, Bool.or_eq_false_iff, decide_eq_false_iff_not] at h
    simp only [List.cons_append, dictGet?]
    rw [if_neg h.1]
    exact ih h.2

/-- Reading back the key just written by `dictSet`. -/
lemma dictGet?_dictSet_self {α : Type} (c : List (String × α)) (k : String) (v : α) :
    dictGet? (dictSet c k v) k = some v := by
  unfold dictSet
  rcases h : c.any (fun p => p.1 = k) with _ | _
  · simp only [h, Bool.false_eq_true, if_false]
    exact dictGet?_append_self k v c h
  · simp only [h, if_true]
    exact dictGet?_map_set k v c h

/-- C8: a `get_user_display` lookup of a cached user id within the TTL
returns the cached display name with zero remote fetches and an unchanged
cache; a lookup of a cached id whose `last_refreshed` is strictly older
than 7 days performs exactly one remote fetch and replaces the cache
entry with one whose `last_refreshed` is the fetch time. -/
theorem cache_lookup_ttl_fetch_counts
    (env : ApplyEnv) (st : ApplyState) (c : List (String × SlackUser)) (uid : String)
    (u : SlackUser) (i rn : String)
    (hc : st.userCache = some c)
    (hu : dictGet? c uid = some u)
    (hapi : env.api uid = .ok i rn) :
    (entry_expired env.now u = false →
      get_user_display env st uid = ⟨.ok u.real_name, ⟨some c⟩, 0⟩) ∧
    (entry_expired env.now u = true →
      get_user_display env st uid
        = ⟨.ok rn, ⟨some (dictSet c uid ⟨i, rn, env.now⟩)⟩, 1⟩ ∧
      dictGet? (dictSet c uid ⟨i, rn, env.now⟩) uid = some ⟨i, rn, env.now⟩) := by
  constructor
  · intro hfresh
    simp only [get_user_display, hc, hu, hfresh, Bool.false_eq_true, if_false]
  · intro hexp
    refine ⟨?_, dictGet?_dictSet_self c uid ⟨i, rn, env.now⟩⟩
    simp only [get_user_display, hc, hu, hexp, if_true, api_fetch_user_info, hapi]

/-- Witness for C8: a within-TTL hit fetches nothing; an expired hit
fetches once and replaces the entry with `last_refreshed = now`. -/
theorem cache_lookup_ttl_fetch_counts_w :
    get_user_display envFresh ⟨some freshCacheU1⟩ "U1" = ⟨.ok "Old Name", ⟨some freshCacheU1⟩, 0⟩ ∧
    get_user_display envFresh ⟨some staleCacheU1⟩ "U1"
      = ⟨.ok "Fresh Name", ⟨some (dictSet staleCacheU1 "U1" ⟨"U1", "Fresh Name", 1610000000⟩)⟩, 1⟩ :=
  ⟨(cache_lookup_ttl_fetch_counts envFresh ⟨some freshCacheU1⟩ freshCacheU1 "U1"
      ⟨"U1", "Old Name", 1609990000⟩ "U1" "Fresh Name" rfl rfl rfl).1 (by decide),
   ((cache_lookup_ttl_fetch_counts envFresh ⟨some staleCacheU1⟩ staleCacheU1 "U1"
      ⟨"U1", "Old Name", 1609000000⟩ "U1" "Fresh Name" rfl rfl rfl).2 (by decide)).1⟩

/-- C9: the claim fails on the code.  The reload guard of
`get_user_display` is `if _SLACK_USER_CACHE is None`, but module
initialization sets the global to `{}` (never `None`), so the persisted
file is never reloaded: on the first lookup after process start, a
within-TTL entry persisted for `U1` notwithstanding, the lookup misses
the empty in-memory cache, performs one remote fetch, and returns the
remote name instead of the persisted one. -/
theorem persisted_cache_not_reloaded_on_first_access :
    SLACK_USER_CACHE_INIT.userCache ≠ none ∧
    load_user_cache envPersisted = [("U1", persistedU1)] ∧
    entry_expired envPersisted.now persistedU1 = false ∧
    get_user_display envPersisted SLACK_USER_CACHE_INIT "U1"
      = ⟨.ok "Remote Name", ⟨some [("U1", ⟨"U1", "Remote Name", 1610000000⟩)]⟩, 1⟩ ∧
    persistedU1.real_name ≠ "Remote Name" :=
  ⟨by decide, rfl, by decide, rfl, by decide⟩

/-- An exception raised by the delete builder propagates out of
`register_message_for_update`. -/
lemma register_propagates_deleted
    (sp : String) (pending : Pending) (fs : List (String × JVal)) (e : String)
    (hty : dictGet? fs "type" = some (.s "message"))
    (hsub : dictGet? fs "subtype" = some (.s "message_deleted"))
    (hb : build_update_delete (.obj fs) = .error e) :
    register_message_for_update sp (.obj fs) pending = .error e := by
  simp [register_message_for_update, JVal.getItem, JVal.get?, hty, hsub, lookupBuilder, hb]

/-- An exception raised by the reply builder propagates out of
`register_message_for_update`. -/
lemma register_propagates_replied
    (sp : String) (pending : Pending) (fs : List (String × JVal)) (e : String)
    (hty : dictGet? fs "type" = some (.s "message"))
    (hsub : dictGet? fs "subtype" = some (.s "message_replied"))
    (hb : build_update_reply (.obj fs) = .error e) :
    register_message_for_update sp (.obj fs) pending = .error e := by
  simp [register_message_for_update, JVal.getItem, JVal.get?, hty, hsub, lookupBuilder, hb]

/-- Errors of both nested builders give the full rejection behaviour. -/
lemma buildersReject_of_build_err
    (sp : String) (pending : Pending) (fs : List (String × JVal)) (e1 e2 : String)
    (h1 : build_update_delete (.obj fs) = .error e1)
    (h2 : build_update_reply (.obj fs) = .error e2) :
    buildersReject sp pending fs :=
  ⟨⟨e1, h1⟩, ⟨e2, h2⟩,
   fun hty hsub => ⟨e1, register_propagates_deleted sp pending fs e1 hty hsub h1⟩,
   fun hty hsub => ⟨e2, register_propagates_replied sp pending fs e2 hty hsub h2⟩⟩

/-- When the first nested field raises, both builders raise. -/
lemma builders_err_of_first
    (fs : List (String × JVal)) (e : String)
    (h1 : getNestedStr (.obj fs) "client_msg_id" = .error e) :
    build_update_delete (.obj fs) = .error e ∧ build_update_reply (.obj fs) = .error e := by
  constructor <;>
  · rcases h2 : getNestedStr (.obj fs) "text" with e2 | v2 <;>
    rcases h3 : getNestedStr (.obj fs) "ts" with e3 | v3 <;>
      simp [build_update_delete, build_update_reply, h1, h2, h3]

/-- C10: for every raw event holding a nested `message` mapping with
string values at `client_msg_id`, `text` and `ts` (the last parseable),
the delete and reply builders read exactly those nested fields; and for
every event lacking the nested mapping or one of those keys, building
raises (`KeyError`, or `TypeError` when `message` is not a mapping), so
`register_message_for_update` raises and no update is enqueued. -/
theorem nested_message_fields_for_delete_and_reply
    (fs ms : List (String × JVal)) (message_id text ts : String) (t : EpochTime)
    (sp : String) (pending : Pending) :
    ((dictGet? fs "message" = some (.obj ms) ∧
      dictGet? ms "client_msg_id" = some (.s message_id) ∧
      dictGet? ms "text" = some (.s text) ∧
      dictGet? ms "ts" = some (.s ts) ∧ parseTs ts = some t) →
      build_update_delete (.obj fs) = .ok (.delete message_id text t) ∧
      build_update_reply (.obj fs) = .ok (.reply message_id text t)) ∧
    (dictGet? fs "message" = none → buildersReject sp pending fs) ∧
    ((dictGet? fs "message" = some (.obj ms) ∧ dictGet? ms "client_msg_id" = none) →
      buildersReject sp pending fs) ∧
    ((dictGet? fs "message" = some (.obj ms) ∧
      dictGet? ms "client_msg_id" = some (.s message_id) ∧ dictGet? ms "text" = none) →
      buildersReject sp pending fs) ∧
    ((dictGet? fs "message" = some (.obj ms) ∧
      dictGet? ms "client_msg_id" = some (.s message_id) ∧
      dictGet? ms "text" = some (.s text) ∧ dictGet? ms "ts" = none) →
      buildersReject sp pending fs) := by
  refine ⟨?_, ?_, ?_, ?_, ?_⟩
  · rintro ⟨hm, hid, htxt, hts, hp⟩
    constructor <;>
      simp [build_update_delete, build_update_reply, getNestedStr, getStrItem,
        JVal.getItem, JVal.asStr, hm, hid, htxt, hts, hp]
  · intro hm
    have hg : ∀ k, getNestedStr (.obj fs) k = .error "KeyError: message" := fun k => by
      simp [getNestedStr, JVal.getItem, hm]
    have h := builders_err_of_first fs "KeyError: message" (hg "client_msg_id")
    exact buildersReject_of_build_err sp pending fs _ _ h.1 h.2
  · rintro ⟨hm, hid⟩
    have h1 : getNestedStr (.obj fs) "client_msg_id" = .error "KeyError: client_msg_id" := by
      simp [getNestedStr, getStrItem, JVal.getItem, hm, hid]
    have h := builders_err_of_first fs "KeyError: client_msg_id" h1
    exact buildersReject_of_build_err sp pending fs _ _ h.1 h.2
  · rintro ⟨hm, hid, htxt⟩
    have h1 : getNestedStr (.obj fs) "client_msg_id" = .ok message_id := by
      simp [getNestedStr, getStrItem, JVal.getItem, JVal.asStr, hm, hid]
    have h2 : getNestedStr (.obj fs) "text" = .error "KeyError: text" := by
      simp [getNestedStr, getStrItem, JVal.getItem, hm, htxt]
    have hd : build_update_delete (.obj fs) = .error "KeyError: text" := by
      rcases h3 : getNestedStr (.obj fs) "ts" with e3 | v3 <;>
        simp [build_update_delete, h1, h2, h3]
    have hr : build_update_reply (.obj fs) = .error "KeyError: text" := by
      rcases h3 : getNestedStr (.obj fs) "ts" with e3 | v3 <;>
        simp [build_update_reply, h1, h2, h3]
    exact buildersReject_of_build_err sp pending fs _ _ hd hr
  · rintro ⟨hm, hid, htxt, hts⟩
    have h1 : getNestedStr (.obj fs) "client_msg_id" = .ok message_id := by
      simp [getNestedStr, getStrItem, JVal.getItem, JVal.asStr, hm, hid]
    have h2 : getNestedStr (.obj fs) "text" = .ok text := by
      simp [getNestedStr, getStrItem, JVal.getItem, JVal.asStr, hm, htxt]
    have h3 : getNestedStr (.obj fs) "ts" = .error "KeyError: ts" := by
      simp [getNestedStr, getStrItem, JVal.getItem, hm, hts]
    exact buildersReject_of_build_err sp pending fs "KeyError: ts" "KeyError: ts"
      (by simp [build_update_delete, h1, h2, h3])
      (by simp [build_update_reply, h1, h2, h3])

/-- Witness for C10: a well-formed deleted event builds the Delete update
from the nested fields; an event without the nested mapping makes
registration raise. -/
theorem nested_message_fields_for_delete_and_reply_w :
    build_update_delete (.obj delEventFields) = .ok (.delete "m1" "hi" ⟨1610000000, 100⟩) ∧
    (∃ e, register_message_for_update "SHEET" (.obj noMsgFields) [] = .error e) :=
  ⟨((nested_message_fields_for_delete_and_reply delEventFields delEventNested "m1" "hi"
      "1610000000.000100" ⟨1610000000, 100⟩ "SHEET" []).1
      ⟨rfl, rfl, rfl, rfl, by decide⟩).1,
   ((nested_message_fields_for_delete_and_reply noMsgFields [] "" "" "" ⟨0, 0⟩ "SHEET" []).2.1
      rfl).2.2.1 rfl rfl⟩

end Slack2Doc
